import Mathlib

/-!
Verification development for the SpartaCustomResource repository
(`src/main.go`).

The repository defines one AWS Lambda function (`helloWorld`) and one
CloudFormation custom resource handler (`SpartaHelloWorldResource`) with
Create / Update / Delete methods, plus a provider factory registered in
`init`.  We shallowly embed those functions here.  JSON values are modelled
by an inductive tree, Go `error` results by `Except`, Go `nil` pointers by
`Option`, and a Go runtime panic (nil-pointer dereference) by an explicit
`goPanic` outcome.  The lifecycle dispatcher and the provider registry live
in the external Sparta / go-cloudformation frameworks, outside `src/`; those
parts are modelled from the spec and marked as such in their doc comments.
-/

/-- A JSON document, as decoded from raw bytes.  Object fields keep their
textual order, mirroring the byte stream that `encoding/json` walks. -/
inductive JSONValue where
  | null : JSONValue
  | str (s : String) : JSONValue
  | num (n : Int) : JSONValue
  | boolean (b : Bool) : JSONValue
  | arr (elems : List JSONValue) : JSONValue
  | obj (fields : List (String × JSONValue)) : JSONValue

/-- Embeds Go's `json.RawMessage` (the raw bytes of `ResourceProperties`):
`some j` are bytes that parse as the JSON document `j`, `none` are bytes
that are not valid JSON (on which `json.Unmarshal` fails with a syntax
error before looking at any field). -/
def RawMessage : Type := Option JSONValue

/-- A decode error produced by `json.Unmarshal`, per spec §4.2 a DecodeError
carries the offending field name when the failure is tied to one field
(type mismatch); syntax-level failures carry no field name. -/
structure DecodeError where
  field : Option String
  msg : String
deriving DecidableEq

/-- Embeds `gocf.StringExpr`: either a literal string (`Literal`) or a
CloudFormation intrinsic-function expression (`Func`), here kept abstractly
as the JSON object that encoded it.  Unmarshalling a plain JSON string sets
`Literal` and leaves `Func` empty. -/
structure StringExpr where
  Func : Option JSONValue := none
  Literal : String := ""

/-- Embeds the JSON-visible part of the embedded `gocf.CloudFormationCustomResource`
base struct: its `ServiceToken` pointer field (`nil` modelled as `none`). -/
structure CloudFormationCustomResource where
  ServiceToken : Option StringExpr := none

/-- Embeds `SpartaCustomResourceRequest` from src/main.go: the `Message`
field is a Go pointer `*gocf.StringExpr`, so `none` is the nil pointer a
fresh instance starts with. -/
structure SpartaCustomResourceRequest where
  Message : Option StringExpr := none

/-- Embeds `SpartaHelloWorldResource` from src/main.go: the command handler,
a struct embedding `gocf.CloudFormationCustomResource` and
`SpartaCustomResourceRequest`. -/
structure SpartaHelloWorldResource extends CloudFormationCustomResource, SpartaCustomResourceRequest

/-- Whether a JSON object is a CloudFormation intrinsic-function call
(`{"Ref": ...}` or a single `Fn::*` key), the shapes `gocf.StringExpr`'s
unmarshaller accepts into its `Func` branch. -/
def isIntrinsicFnObj (fields : List (String × JSONValue)) : Bool :=
  match fields with
  | [(key, _)] => key = "Ref" || key.startsWith "Fn::"
  | _ => false

/-- Unmarshalling a JSON value into a `gocf.StringExpr` target field: a JSON
string becomes the literal, an intrinsic-function object becomes the `Func`
branch, and any other shape is a type-mismatch error carrying the offending
field's name. -/
def unmarshalStringExpr (fieldName : String) (j : JSONValue) : Except DecodeError StringExpr :=
  match j with
  | .str s => .ok { Func := none, Literal := s }
  | .obj fields =>
      if isIntrinsicFnObj fields then
        .ok { Func := some (.obj fields), Literal := "" }
      else
        .error { field := some fieldName,
                 msg := "json: cannot unmarshal object into Go struct field " ++ fieldName }
  | _ => .error { field := some fieldName,
                  msg := "json: cannot unmarshal value into Go struct field " ++ fieldName }

/-- One pass of `json.Unmarshal` over a decoded JSON object's fields,
writing into the (copied) receiver struct: the keys `ServiceToken` and
`Message` match struct fields and are decoded as `*gocf.StringExpr`;
unknown keys are ignored; keys absent from the object leave the struct
field untouched — `encoding/json` never reports a missing field. -/
def unmarshalFields (command : SpartaHelloWorldResource) :
    List (String × JSONValue) → Except DecodeError SpartaHelloWorldResource
  | [] => .ok command
  | (k, v) :: rest =>
      if k = "ServiceToken" then
        match unmarshalStringExpr "ServiceToken" v with
        | .error e => .error e
        | .ok se => unmarshalFields { command with ServiceToken := some se } rest
      else if k = "Message" then
        match unmarshalStringExpr "Message" v with
        | .error e => .error e
        | .ok se => unmarshalFields { command with Message := some se } rest
      else
        unmarshalFields command rest

/-- Embeds `json.Unmarshal(event.ResourceProperties, &command)` as used by
all three handler methods: invalid bytes and non-object documents fail with
a field-less error; an object document is folded over its fields. -/
def jsonUnmarshal (command : SpartaHelloWorldResource) (raw : RawMessage) :
    Except DecodeError SpartaHelloWorldResource :=
  match raw with
  | none => .error { field := none, msg := "unexpected end of JSON input" }
  | some (.obj fields) => unmarshalFields command fields
  | some _ =>
      .error { field := none,
               msg := "json: cannot unmarshal value into Go value of type main.SpartaHelloWorldResource" }

/-- Embeds the fields of `spartaAWSResource.CloudFormationLambdaEvent` that
src/main.go and the dispatch path read; `ResourceProperties` is the raw
payload each handler unmarshals itself. -/
structure CloudFormationLambdaEvent where
  RequestType : String
  ResourceType : String
  ResourceProperties : RawMessage

/-- The result of one handler method invocation, embedding the Go pair
`(map[string]interface{}, error)` plus the one outcome Go does not return:
a runtime panic.  `ok none` is Go's `(nil, nil)`, `ok (some kvs)` a non-nil
result map (all values here are strings), `err e` is `(nil, err)`, and
`goPanic m` is a runtime fault (nil-pointer dereference) raised before the
method could return. -/
inductive HandlerOutcome where
  | ok (payload : Option (List (String × String))) : HandlerOutcome
  | err (e : DecodeError) : HandlerOutcome
  | goPanic (msg : String) : HandlerOutcome
deriving DecidableEq

/-- The message of the Go runtime fault raised by dereferencing a nil
pointer, as `command.Message.Literal` does when `Message` is nil. -/
def nilDerefMsg : String := "runtime error: invalid memory address or nil pointer dereference"

/-- Embeds the Go expression `command.Message.Literal`: reading through the
`*gocf.StringExpr` pointer, which panics when the pointer is nil. -/
def derefLiteral (message : Option StringExpr) : Except String String :=
  match message with
  | none => .error nilDerefMsg
  | some se => .ok se.Literal

/-- Embeds `SpartaHelloWorldResource.Create` (src/main.go lines 67-79): a
value receiver is unmarshalled from the event's properties (early return on
error), then `command.Message.Literal` is read (first in the `logger.Info`
call) and a one-entry result map is returned.  The AWS session and logger
parameters are external effect sinks and carry no data into the result. -/
def SpartaHelloWorldResource.Create (command : SpartaHelloWorldResource)
    (event : CloudFormationLambdaEvent) : HandlerOutcome :=
  match jsonUnmarshal command event.ResourceProperties with
  | .error requestPropsErr => .err requestPropsErr
  | .ok command =>
      match derefLiteral command.Message with
      | .error p => .goPanic p
      | .ok lit => .ok (some [("Resource", "Created message: " ++ lit)])

/-- Embeds `SpartaHelloWorldResource.Update` (src/main.go lines 82-92):
unmarshal with early return on error, read `command.Message.Literal` in the
log call, then return `(nil, nil)`. -/
def SpartaHelloWorldResource.Update (command : SpartaHelloWorldResource)
    (event : CloudFormationLambdaEvent) : HandlerOutcome :=
  match jsonUnmarshal command event.ResourceProperties with
  | .error requestPropsErr => .err requestPropsErr
  | .ok command =>
      match derefLiteral command.Message with
      | .error p => .goPanic p
      | .ok _ => .ok none

/-- Embeds `SpartaHelloWorldResource.Delete` (src/main.go lines 95-104):
identical shape to Update. -/
def SpartaHelloWorldResource.Delete (command : SpartaHelloWorldResource)
    (event : CloudFormationLambdaEvent) : HandlerOutcome :=
  match jsonUnmarshal command event.ResourceProperties with
  | .error requestPropsErr => .err requestPropsErr
  | .ok command =>
      match derefLiteral command.Message with
      | .error p => .goPanic p
      | .ok _ => .ok none

/-- Embeds the constant `spartaHelloWorldResourceType` (src/main.go line 45). -/
def spartaHelloWorldResourceType : String := "Custom::sparta::HelloWorldResource"

/-- Embeds the `customResourceFactory` closure registered in `init`
(src/main.go lines 108-117): the switch returns a fresh empty
`SpartaHelloWorldResource` for the registered type string and Go `nil`
(here `none`) for every other string. -/
def customResourceFactory (resourceType : String) : Option SpartaHelloWorldResource :=
  if resourceType = spartaHelloWorldResourceType then some {} else none

/-- The wire response shape of spec §6: `{Status, Reason, Data}` with
`Status` either `"SUCCESS"` (with `Data`) or `"FAILED"` (with `Reason`). -/
structure Response where
  Status : String
  Reason : String := ""
  Data : List (String × String) := []
deriving DecidableEq

/-- What one dispatch hands back to the hosting platform: either a
well-formed `Response`, or — the outcome the spec's propagation policy
forbids — an unhandled runtime fault escaping the process. -/
inductive DispatchOutcome where
  | response (r : Response) : DispatchOutcome
  | fault (msg : String) : DispatchOutcome
deriving DecidableEq

/-- Modelled from the spec: the Registry of §4.1 (the storage behind
`gocf.RegisterCustomResourceProvider` lives in the go-cloudformation
framework, outside src/): a process-wide list of provider functions from a
ResourceTypeID to a constructed handler or NotFound. -/
abbrev Registry : Type := List (String → Option SpartaHelloWorldResource)

/-- Modelled from the spec: `Register(typeID, constructor)` of §4.1 — the
framework appends the provider to the registry. -/
def RegisterCustomResourceProvider (provider : String → Option SpartaHelloWorldResource)
    (reg : Registry) : Registry :=
  reg ++ [provider]

/-- Modelled from the spec: `Lookup(typeID) -> constructor or NotFound` of
§4.1 — the first provider returning a handler for the type wins. -/
def Lookup (reg : Registry) (typeID : String) : Option SpartaHelloWorldResource :=
  match reg with
  | [] => none
  | provider :: rest =>
      match provider typeID with
      | some handler => some handler
      | none => Lookup rest typeID

/-- Modelled from the spec: step 4 of the Dispatcher contract (§4.3) — a
handler's returned error value becomes a FAILED Response with the error's
message as the reason, a returned payload (possibly nil, as for
Update/Delete) becomes a SUCCESS Response; a runtime fault raised inside
the handler is not a returned error value and is never caught, so it
escapes the dispatcher. -/
def wrapHandlerOutcome (outcome : HandlerOutcome) : DispatchOutcome :=
  match outcome with
  | .ok payload => .response { Status := "SUCCESS", Reason := "", Data := payload.getD [] }
  | .err e => .response { Status := "FAILED", Reason := e.msg, Data := [] }
  | .goPanic m => .fault m

/-- Modelled from the spec: `Dispatch(event) -> Response` of §4.3.  The
decoding of ResourceProperties into typed fields happens inside the handler
methods themselves (src/main.go), so the dispatcher is registry lookup
(NotFound is an immediate failure Response, no handler method invoked),
lifecycle-verb selection (unrecognized verbs fail with
UnsupportedOperation), method invocation and result wrapping. -/
def Dispatch (reg : Registry) (event : CloudFormationLambdaEvent) : DispatchOutcome :=
  match Lookup reg event.ResourceType with
  | none =>
      .response { Status := "FAILED",
                  Reason := "custom resource provider not found for type " ++ event.ResourceType,
                  Data := [] }
  | some handler =>
      if event.RequestType = "Create" then
        wrapHandlerOutcome (handler.Create event)
      else if event.RequestType = "Update" then
        wrapHandlerOutcome (handler.Update event)
      else if event.RequestType = "Delete" then
        wrapHandlerOutcome (handler.Delete event)
      else
        .response { Status := "FAILED",
                    Reason := "UnsupportedOperation: " ++ event.RequestType,
                    Data := [] }

/-- The registry before `init` runs: empty. -/
def initialRegistry : Registry := []

/-- Embeds `init` (src/main.go lines 108-117): the single registration call
the process ever makes, performed before any dispatch begins. -/
def registryAfterInit : Registry :=
  RegisterCustomResourceProvider customResourceFactory initialRegistry

/-- One steady-state dispatch step of the process: it produces a
DispatchOutcome and leaves the registry untouched — the dispatch path in
src/main.go contains no registration call. -/
def dispatchStep (reg : Registry) (event : CloudFormationLambdaEvent) :
    DispatchOutcome × Registry :=
  (Dispatch reg event, reg)

/-- The registry the process holds after `init` and then any sequence of
dispatched lifecycle events. -/
def registryAfterDispatches (events : List CloudFormationLambdaEvent) : Registry :=
  events.foldl (fun reg event => (dispatchStep reg event).2) registryAfterInit

/-- The Lambda execution context seen by `helloWorld`: the two context
values it reads, each possibly absent.  The logger objects themselves are
opaque sinks, so only their presence matters. -/
structure LambdaContext where
  logger : Option Unit
  requestLogger : Option Unit

/-- Where one of `helloWorld`'s log lines went. -/
inductive LogSink where
  | structuredLogger : LogSink
  | requestScopedLogger : LogSink
  | stdout : LogSink
deriving DecidableEq

/-- Embeds `helloWorld` (src/main.go lines 21-35): log according to which
loggers the context carries, then return the fixed greeting and a nil
error.  The first component is the Go return pair, the second the log
lines emitted. -/
def helloWorld (ctx : LambdaContext) : (String × Option String) × List (LogSink × String) :=
  let firstLog :=
    match ctx.logger with
    | some _ => [(LogSink.structuredLogger, "Accessing structured logger 🙌")]
    | none => []
  let secondLog :=
    match ctx.requestLogger, ctx.logger with
    | some _, _ => [(LogSink.requestScopedLogger, "Accessing request-scoped log, with request ID field")]
    | none, some _ => [(LogSink.structuredLogger, "Failed to access scoped logger")]
    | none, none => [(LogSink.stdout, "Failed to access any logger")]
  (("Hello World 👋. Welcome to AWS Lambda! 🙌🎉🍾", none), firstLog ++ secondLog)

/-- An invocation of Create as the caller sees it: Go's value receiver
(`func (command SpartaHelloWorldResource) Create(...)`) copies the
receiver, so `json.Unmarshal(..., &command)` inside the method writes only
the copy and the caller's instance after the call is the value it passed. -/
def invokeCreate (r : SpartaHelloWorldResource) (event : CloudFormationLambdaEvent) :
    HandlerOutcome × SpartaHelloWorldResource :=
  (r.Create event, r)

/-- An invocation of Update as the caller sees it (value receiver, as for
`invokeCreate`). -/
def invokeUpdate (r : SpartaHelloWorldResource) (event : CloudFormationLambdaEvent) :
    HandlerOutcome × SpartaHelloWorldResource :=
  (r.Update event, r)

/-- An invocation of Delete as the caller sees it (value receiver, as for
`invokeCreate`). -/
def invokeDelete (r : SpartaHelloWorldResource) (event : CloudFormationLambdaEvent) :
    HandlerOutcome × SpartaHelloWorldResource :=
  (r.Delete event, r)

/-- Repeats a handler invocation `n` times on the same event, threading the
caller's instance through, and collects the outcomes — the orchestrator's
at-least-once retry of Update/Delete. -/
def invokeTimes
    (op : SpartaHelloWorldResource → CloudFormationLambdaEvent →
      HandlerOutcome × SpartaHelloWorldResource)
    (n : Nat) (r : SpartaHelloWorldResource) (event : CloudFormationLambdaEvent) :
    List HandlerOutcome × SpartaHelloWorldResource :=
  match n with
  | 0 => ([], r)
  | n + 1 =>
      let (outcome, r1) := op r event
      let (outcomes, r2) := invokeTimes op n r1 event
      (outcome :: outcomes, r2)

/-- A Create lifecycle event whose properties are the valid JSON object
`{}`: well-formed, but missing the required `Message` field. -/
def createEventNoMessage : CloudFormationLambdaEvent :=
  { RequestType := "Create",
    ResourceType := spartaHelloWorldResourceType,
    ResourceProperties := some (.obj []) }

/-- An Update lifecycle event with the same empty property object. -/
def updateEventNoMessage : CloudFormationLambdaEvent :=
  { RequestType := "Update",
    ResourceType := spartaHelloWorldResourceType,
    ResourceProperties := some (.obj []) }

/-- A Delete lifecycle event with the same empty property object. -/
def deleteEventNoMessage : CloudFormationLambdaEvent :=
  { RequestType := "Delete",
    ResourceType := spartaHelloWorldResourceType,
    ResourceProperties := some (.obj []) }

/-- A Create lifecycle event with properties `{"Message": "hi"}`. -/
def createEventHi : CloudFormationLambdaEvent :=
  { RequestType := "Create",
    ResourceType := spartaHelloWorldResourceType,
    ResourceProperties := some (.obj [("Message", .str "hi")]) }

/-- An Update lifecycle event with properties `{"Message": "hi"}`. -/
def updateEventHi : CloudFormationLambdaEvent :=
  { RequestType := "Update",
    ResourceType := spartaHelloWorldResourceType,
    ResourceProperties := some (.obj [("Message", .str "hi")]) }

/-- A Delete lifecycle event with properties `{"Message": "hi"}`. -/
def deleteEventHi : CloudFormationLambdaEvent :=
  { RequestType := "Delete",
    ResourceType := spartaHelloWorldResourceType,
    ResourceProperties := some (.obj [("Message", .str "hi")]) }

/-- An event whose ResourceProperties bytes are not a JSON object (the JSON
document `3`), so unmarshalling fails before any field is read. -/
def createEventBadProps : CloudFormationLambdaEvent :=
  { RequestType := "Create",
    ResourceType := spartaHelloWorldResourceType,
    ResourceProperties := some (.num 3) }

/-- Unfolding Create past a successful unmarshal: the method body continues
with the decoded copy of the receiver. -/
theorem create_unfold_ok (command decoded : SpartaHelloWorldResource)
    (event : CloudFormationLambdaEvent)
    (h : jsonUnmarshal command event.ResourceProperties = .ok decoded) :
    command.Create event =
      (match derefLiteral decoded.Message with
       | .error p => .goPanic p
       | .ok lit => .ok (some [("Resource", "Created message: " ++ lit)])) := by
  unfold SpartaHelloWorldResource.Create
  rw [h]

/-- Unfolding Update past a successful unmarshal. -/
theorem update_unfold_ok (command decoded : SpartaHelloWorldResource)
    (event : CloudFormationLambdaEvent)
    (h : jsonUnmarshal command event.ResourceProperties = .ok decoded) :
    command.Update event =
      (match derefLiteral decoded.Message with
       | .error p => .goPanic p
       | .ok _ => .ok none) := by
  unfold SpartaHelloWorldResource.Update
  rw [h]

/-- Unfolding Delete past a successful unmarshal. -/
theorem delete_unfold_ok (command decoded : SpartaHelloWorldResource)
    (event : CloudFormationLambdaEvent)
    (h : jsonUnmarshal command event.ResourceProperties = .ok decoded) :
    command.Delete event =
      (match derefLiteral decoded.Message with
       | .error p => .goPanic p
       | .ok _ => .ok none) := by
  unfold SpartaHelloWorldResource.Delete
  rw [h]

/-- Update returns Go `(nil, nil)` whenever the decoded properties carry a
Message (the nil-pointer read then succeeds). -/
theorem update_nil_of_message (command decoded : SpartaHelloWorldResource)
    (event : CloudFormationLambdaEvent) (se : StringExpr)
    (hdec : jsonUnmarshal command event.ResourceProperties = .ok decoded)
    (hmsg : decoded.Message = some se) :
    command.Update event = .ok none := by
  rw [update_unfold_ok command decoded event hdec, hmsg]
  rfl

/-- Delete returns Go `(nil, nil)` whenever the decoded properties carry a
Message. -/
theorem delete_nil_of_message (command decoded : SpartaHelloWorldResource)
    (event : CloudFormationLambdaEvent) (se : StringExpr)
    (hdec : jsonUnmarshal command event.ResourceProperties = .ok decoded)
    (hmsg : decoded.Message = some se) :
    command.Delete event = .ok none := by
  rw [delete_unfold_ok command decoded event hdec, hmsg]
  rfl

/-- Claim C1: the spec requires every handler operation to terminate by
returning a result payload or an error value, with no unhandled fault and
in particular no nil-pointer dereference when `Message` is absent.  The
code violates this: on the well-formed property object `{}` the unmarshal
succeeds (missing fields are not errors), `Message` stays nil, and all
three methods then dereference it in `command.Message.Literal`, raising a
runtime fault instead of returning. -/
theorem handlers_panic_on_missing_message :
    jsonUnmarshal {} (some (.obj [])) = .ok {} ∧
    ({} : SpartaHelloWorldResource).Create createEventNoMessage = .goPanic nilDerefMsg ∧
    ({} : SpartaHelloWorldResource).Update updateEventNoMessage = .goPanic nilDerefMsg ∧
    ({} : SpartaHelloWorldResource).Delete deleteEventNoMessage = .goPanic nilDerefMsg :=
  ⟨rfl, rfl, rfl, rfl⟩

/-- Claim C2: the spec's scenario says properties missing the required
`Message` field yield a FAILED Response whose Reason mentions "Message".
The code violates this: dispatching Create on `{}` ends in the nil-pointer
runtime fault, so no Response — neither the claimed failure nor any
success payload — is produced at all. -/
theorem dispatch_missing_message_is_fault :
    Dispatch registryAfterInit createEventNoMessage = .fault nilDerefMsg ∧
    ({} : SpartaHelloWorldResource).Create createEventNoMessage = .goPanic nilDerefMsg ∧
    (∀ r : Response, Dispatch registryAfterInit createEventNoMessage ≠ .response r) := by
  refine ⟨rfl, rfl, ?_⟩
  intro r h
  exact DispatchOutcome.noConfusion h

/-- Claim C3: when the event's properties decode successfully with a
`Message` whose literal is `m`, Create returns the one-entry map
`{"Resource": "Created message: " ++ m}` and a nil error. -/
theorem create_success_payload (command decoded : SpartaHelloWorldResource)
    (event : CloudFormationLambdaEvent) (se : StringExpr) (m : String)
    (hdec : jsonUnmarshal command event.ResourceProperties = .ok decoded)
    (hmsg : decoded.Message = some se) (hlit : se.Literal = m) :
    command.Create event = .ok (some [("Resource", "Created message: " ++ m)]) := by
  rw [create_unfold_ok command decoded event hdec, hmsg, derefLiteral, hlit]

/-- Witness for C3 at the concrete event with properties
`{"Message": "hi"}`. -/
theorem create_success_payload_witness :
    ({} : SpartaHelloWorldResource).Create createEventHi =
      .ok (some [("Resource", "Created message: hi")]) :=
  create_success_payload {} { Message := some { Func := none, Literal := "hi" } }
    createEventHi { Func := none, Literal := "hi" } "hi" rfl rfl rfl

/-- Counterexample to claim C4 as stated: on the property object `{}` the
unmarshal succeeds, yet Update does not return the claimed success with nil
payload and nil error — it hits the nil-pointer dereference. -/
theorem update_decode_ok_yet_not_success :
    jsonUnmarshal {} updateEventNoMessage.ResourceProperties = .ok {} ∧
    ({} : SpartaHelloWorldResource).Update updateEventNoMessage = .goPanic nilDerefMsg ∧
    ({} : SpartaHelloWorldResource).Update updateEventNoMessage ≠ .ok none := by
  refine ⟨rfl, rfl, ?_⟩
  intro h
  exact HandlerOutcome.noConfusion h

/-- Claim C4 as amended: for every event whose properties decode
successfully and carry a `Message`, Update and Delete return Go's
`(nil, nil)`, and the dispatcher wraps that empty payload into a SUCCESS
Response with empty data. -/
theorem update_delete_nil_then_success_response (command decoded : SpartaHelloWorldResource)
    (event : CloudFormationLambdaEvent) (se : StringExpr)
    (hdec : jsonUnmarshal command event.ResourceProperties = .ok decoded)
    (hmsg : decoded.Message = some se) :
    command.Update event = .ok none ∧
    command.Delete event = .ok none ∧
    wrapHandlerOutcome (HandlerOutcome.ok none) =
      .response { Status := "SUCCESS", Reason := "", Data := [] } :=
  ⟨update_nil_of_message command decoded event se hdec hmsg,
   delete_nil_of_message command decoded event se hdec hmsg,
   rfl⟩

/-- Witness for the amended C4 at the concrete event with properties
`{"Message": "hi"}`. -/
theorem update_delete_nil_then_success_response_witness :
    ({} : SpartaHelloWorldResource).Update updateEventHi = .ok none ∧
    ({} : SpartaHelloWorldResource).Delete updateEventHi = .ok none ∧
    wrapHandlerOutcome (HandlerOutcome.ok none) =
      .response { Status := "SUCCESS", Reason := "", Data := [] } :=
  update_delete_nil_then_success_response {}
    { Message := some { Func := none, Literal := "hi" } } updateEventHi
    { Func := none, Literal := "hi" } rfl rfl

/-- Claim C5: when unmarshalling the event's properties fails, each of
Create, Update and Delete returns that decode error unchanged and performs
none of its handler logic (no payload, no panic, nothing else); and every
decode error arising from a field's value carries that field's name. -/
theorem decode_error_short_circuits (command : SpartaHelloWorldResource)
    (event : CloudFormationLambdaEvent) (e : DecodeError)
    (hdec : jsonUnmarshal command event.ResourceProperties = .error e) :
    command.Create event = .err e ∧
    command.Update event = .err e ∧
    command.Delete event = .err e ∧
    (∀ fieldName j e2, unmarshalStringExpr fieldName j = .error e2 →
      e2.field = some fieldName) := by
  refine ⟨?_, ?_, ?_, ?_⟩
  · unfold SpartaHelloWorldResource.Create; rw [hdec]
  · unfold SpartaHelloWorldResource.Update; rw [hdec]
  · unfold SpartaHelloWorldResource.Delete; rw [hdec]
  · intro fieldName j e2 h2
    cases j with
    | str s => simp [unmarshalStringExpr] at h2
    | obj fields =>
        simp only [unmarshalStringExpr] at h2
        split at h2
        · simp at h2
        · simp only [Except.error.injEq] at h2
          subst h2
          rfl
    | null =>
        simp only [unmarshalStringExpr, Except.error.injEq] at h2
        subst h2
        rfl
    | num n =>
        simp only [unmarshalStringExpr, Except.error.injEq] at h2
        subst h2
        rfl
    | boolean b =>
        simp only [unmarshalStringExpr, Except.error.injEq] at h2
        subst h2
        rfl
    | arr elems =>
        simp only [unmarshalStringExpr, Except.error.injEq] at h2
        subst h2
        rfl

/-- Witness for C5 at the concrete event whose properties are the JSON
document `3`, on which unmarshalling fails before any field is read. -/
theorem decode_error_short_circuits_witness :
    ({} : SpartaHelloWorldResource).Create createEventBadProps =
      .err { field := none,
             msg := "json: cannot unmarshal value into Go value of type main.SpartaHelloWorldResource" } ∧
    ({} : SpartaHelloWorldResource).Update createEventBadProps =
      .err { field := none,
             msg := "json: cannot unmarshal value into Go value of type main.SpartaHelloWorldResource" } ∧
    ({} : SpartaHelloWorldResource).Delete createEventBadProps =
      .err { field := none,
             msg := "json: cannot unmarshal value into Go value of type main.SpartaHelloWorldResource" } ∧
    (∀ fieldName j e2, unmarshalStringExpr fieldName j = .error e2 →
      e2.field = some fieldName) :=
  decode_error_short_circuits {} createEventBadProps
    { field := none,
      msg := "json: cannot unmarshal value into Go value of type main.SpartaHelloWorldResource" }
    rfl

/-- Claim C6: the registered factory is exact-match on the type string — it
constructs the fresh empty handler exactly for
`"Custom::sparta::HelloWorldResource"` and returns Go `nil` (NotFound) for
every other string. -/
theorem customResourceFactory_exact_match (s : String) :
    (customResourceFactory s = some ({} : SpartaHelloWorldResource) ↔
      s = spartaHelloWorldResourceType) ∧
    (s ≠ spartaHelloWorldResourceType → customResourceFactory s = none) := by
  unfold customResourceFactory
  constructor
  · constructor
    · intro h
      by_cases hs : s = spartaHelloWorldResourceType
      · exact hs
      · rw [if_neg hs] at h
        exact Option.noConfusion h
    · intro h
      rw [if_pos h]
  · intro h
    rw [if_neg h]

/-- Witness for C6 at the registered type string and at a concrete
unregistered string. -/
theorem customResourceFactory_exact_match_witness :
    customResourceFactory spartaHelloWorldResourceType = some ({} : SpartaHelloWorldResource) ∧
    "Custom::other" ≠ spartaHelloWorldResourceType ∧
    customResourceFactory "Custom::other" = none :=
  ⟨(customResourceFactory_exact_match spartaHelloWorldResourceType).1.mpr rfl,
   by decide,
   (customResourceFactory_exact_match "Custom::other").2 (by decide)⟩

/-- Claim C7: the registry is written exactly once, by the single
registration in `init`, and no sequence of dispatched events changes it, so
every later lookup observes that same single registered provider. -/
theorem registry_written_once_then_immutable :
    registryAfterInit = [customResourceFactory] ∧
    (∀ events : List CloudFormationLambdaEvent,
      registryAfterDispatches events = registryAfterInit) ∧
    (∀ (events : List CloudFormationLambdaEvent) (s : String),
      Lookup (registryAfterDispatches events) s = Lookup registryAfterInit s) := by
  have hfold : ∀ (events : List CloudFormationLambdaEvent) (reg : Registry),
      List.foldl (fun reg event => (dispatchStep reg event).2) reg events = reg := by
    intro events
    induction events with
    | nil => intro reg; rfl
    | cons e es ih => intro reg; exact ih reg
  refine ⟨rfl, ?_, ?_⟩
  · intro events
    exact hfold events registryAfterInit
  · intro events s
    rw [show registryAfterDispatches events = registryAfterInit from
      hfold events registryAfterInit]

/-- Counterexample to claim C8 as stated: on the property object `{}` the
decode succeeds, yet the invocation's result is the nil-pointer fault, not
the claimed nil payload with nil error. -/
theorem delete_decode_ok_yet_not_nil_result :
    jsonUnmarshal {} deleteEventNoMessage.ResourceProperties = .ok {} ∧
    ({} : SpartaHelloWorldResource).Delete deleteEventNoMessage = .goPanic nilDerefMsg ∧
    ({} : SpartaHelloWorldResource).Delete deleteEventNoMessage ≠ .ok none := by
  refine ⟨rfl, rfl, ?_⟩
  intro h
  exact HandlerOutcome.noConfusion h

/-- Claim C8 as amended: for every event whose properties decode
successfully and carry a `Message`, invoking Update or Delete any number of
times yields Go's `(nil, nil)` every single time and threads the caller's
instance through unchanged — no in-process state survives between
invocations. -/
theorem update_delete_idempotent (command decoded : SpartaHelloWorldResource)
    (event : CloudFormationLambdaEvent) (se : StringExpr) (n : Nat)
    (hdec : jsonUnmarshal command event.ResourceProperties = .ok decoded)
    (hmsg : decoded.Message = some se) :
    invokeTimes invokeUpdate n command event =
      (List.replicate n (HandlerOutcome.ok none), command) ∧
    invokeTimes invokeDelete n command event =
      (List.replicate n (HandlerOutcome.ok none), command) := by
  have hu := update_nil_of_message command decoded event se hdec hmsg
  have hd := delete_nil_of_message command decoded event se hdec hmsg
  constructor
  · induction n with
    | zero => rfl
    | succ k ih =>
        simp only [invokeTimes, invokeUpdate, hu, ih, List.replicate_succ]
  · induction n with
    | zero => rfl
    | succ k ih =>
        simp only [invokeTimes, invokeDelete, hd, ih, List.replicate_succ]

/-- Witness for the amended C8: three invocations at the concrete event
with properties `{"Message": "hi"}`. -/
theorem update_delete_idempotent_witness :
    invokeTimes invokeUpdate 3 {} updateEventHi =
      (List.replicate 3 (HandlerOutcome.ok none), ({} : SpartaHelloWorldResource)) ∧
    invokeTimes invokeDelete 3 {} updateEventHi =
      (List.replicate 3 (HandlerOutcome.ok none), ({} : SpartaHelloWorldResource)) :=
  update_delete_idempotent {} { Message := some { Func := none, Literal := "hi" } }
    updateEventHi { Func := none, Literal := "hi" } 3 rfl rfl

/-- Claim C9: for every invocation context — whichever loggers it carries —
the Lambda function returns the fixed greeting string and a nil error. -/
theorem helloWorld_fixed_greeting (ctx : LambdaContext) :
    (helloWorld ctx).1 = ("Hello World 👋. Welcome to AWS Lambda! 🙌🎉🍾", none) := rfl

/-- Claim C10: the three methods take the handler by value, so an
invocation leaves the caller's instance exactly as it was, and a second
invocation on that instance behaves as if the first had never happened. -/
theorem value_receiver_frame (r : SpartaHelloWorldResource)
    (e1 e2 : CloudFormationLambdaEvent) :
    (invokeCreate r e1).2 = r ∧ (invokeUpdate r e1).2 = r ∧ (invokeDelete r e1).2 = r ∧
    invokeCreate (invokeCreate r e1).2 e2 = invokeCreate r e2 ∧
    invokeUpdate (invokeUpdate r e1).2 e2 = invokeUpdate r e2 ∧
    invokeDelete (invokeDelete r e1).2 e2 = invokeDelete r e2 :=
  ⟨rfl, rfl, rfl, rfl, rfl, rfl⟩
